import Mathlib

/-!
Shallow embedding of the LinkedIn Voyager client scrubbing layer.

JavaScript values are modelled by `JVal` (JSON trees extended with the
distinguished values `undefined`, `null` and `NaN`).  Property access on
`undefined`/`null` raises a TypeError, modelled by the `Except String`
error channel (the string is the TypeError message).  The only `new
Error` throw site in the code under study is the argument guard of
`getFullProfile`; its error type `JsError` keeps the two kinds apart.
-/

inductive JVal where
  | undefined
  | null
  | bool (b : Bool)
  | num (n : Int)
  | nan
  | str (s : String)
  | arr (elems : List JVal)
  | obj (fields : List (String × JVal))

/-- JavaScript truthiness of a value. -/
def truthy : JVal → Bool
  | .undefined => false
  | .null => false
  | .bool b => b
  | .num n => n != 0
  | .nan => false
  | .str s => s != ""
  | .arr _ => true
  | .obj _ => true

/-- The JavaScript expression `a || b` (both operands already evaluated). -/
def jsOr (a b : JVal) : JVal :=
  if truthy a then a else b

/-- JavaScript strict equality `===` on the values reachable in this code
base.  Objects and arrays originating from distinct JSON parses are never
reference-equal, so structural values compare unequal. -/
def jsStrictEq : JVal → JVal → Bool
  | .undefined, .undefined => true
  | .null, .null => true
  | .bool a, .bool b => a == b
  | .num a, .num b => a == b
  | .str a, .str b => a == b
  | _, _ => false

/-- Property read `v[k]`: TypeError on `undefined`/`null`, first binding of
an object, `length` of arrays and strings, `undefined` otherwise. -/
def getProp (v : JVal) (k : String) : Except String JVal :=
  match v with
  | .undefined => .error ("Cannot read properties of undefined (reading " ++ k ++ ")")
  | .null => .error ("Cannot read properties of null (reading " ++ k ++ ")")
  | .obj fs => .ok ((List.lookup k fs).getD .undefined)
  | .arr xs => if k = "length" then .ok (.num xs.length) else .ok .undefined
  | .str s => if k = "length" then .ok (.num s.length) else .ok .undefined
  | _ => .ok .undefined

/-- The call `v.hasOwnProperty(k)`: TypeError on `undefined`/`null`. -/
def hasOwn (v : JVal) (k : String) : Except String Bool :=
  match v with
  | .undefined => .error "Cannot read properties of undefined (reading hasOwnProperty)"
  | .null => .error "Cannot read properties of null (reading hasOwnProperty)"
  | .obj fs => .ok (List.lookup k fs).isSome
  | .arr xs => .ok (k == "length" || (k.toNat?.map (fun i => decide (i < xs.length))).getD false)
  | .str s => .ok (k == "length" || (k.toNat?.map (fun i => decide (i < s.length))).getD false)
  | _ => .ok false

/-- The call `Object.keys(v)`: TypeError on `undefined`/`null`, key list of
an object, index strings of arrays and strings, empty otherwise. -/
def objKeys (v : JVal) : Except String (List String) :=
  match v with
  | .undefined => .error "Cannot convert undefined to object"
  | .null => .error "Cannot convert null to object"
  | .obj fs => .ok (fs.map Prod.fst)
  | .arr xs => .ok ((List.range xs.length).map toString)
  | .str s => .ok ((List.range s.length).map toString)
  | _ => .ok []

/-- Assignment `target[k] = v` on an object field list: overwrite the first
binding of `k` in place, or append a fresh binding. -/
def setKey : List (String × JVal) → String → JVal → List (String × JVal)
  | [], k, v => [(k, v)]
  | (k', v') :: rest, k, v =>
      if k' = k then (k, v) :: rest else (k', v') :: setKey rest k v

/-- The call `Object.assign(target, source)` for the shapes reachable here:
object sources merge key by key (later keys overwrite), primitive and
absent sources leave the target unchanged. -/
def objectAssign (target source : JVal) : JVal :=
  match target, source with
  | .obj fs, .obj gs => .obj (gs.foldl (fun acc kv => setKey acc kv.1 kv.2) fs)
  | t, _ => t

/-- Effectful map over a list, short-circuiting on the first error, as
`Array.prototype.map` does when the callback throws. -/
def mapME (f : JVal → Except String JVal) : List JVal → Except String (List JVal)
  | [] => .ok []
  | x :: xs => do
      let y ← f x
      let ys ← mapME f xs
      return y :: ys

/-- Effectful filter over a list, short-circuiting on the first error, as
`Array.prototype.filter` does when the predicate throws. -/
def filterME (f : JVal → Except String Bool) : List JVal → Except String (List JVal)
  | [] => .ok []
  | x :: xs => do
      let b ← f x
      let ys ← filterME f xs
      return if b then x :: ys else ys

/-- The call `v.map(f)`: TypeError unless `v` is an array. -/
def jsMapJ (v : JVal) (f : JVal → Except String JVal) : Except String JVal :=
  match v with
  | .arr xs => (mapME f xs).map .arr
  | _ => .error "map is not a function"

/-- The call `v.filter(f)`: TypeError unless `v` is an array. -/
def jsFilterJ (v : JVal) (f : JVal → Except String Bool) : Except String (List JVal) :=
  match v with
  | .arr xs => filterME f xs
  | _ => .error "filter is not a function"

mutual

/-- JavaScript `ToString` as invoked by template literals, for the values
reachable in this code base. -/
def jsToString : JVal → String
  | .undefined => "undefined"
  | .null => "null"
  | .bool b => if b then "true" else "false"
  | .num n => toString n
  | .nan => "NaN"
  | .str s => s
  | .obj _ => "[object Object]"
  | .arr xs => String.intercalate "," (jsToStringList xs)

/-- Element stringification of `Array.prototype.toString`: `undefined` and
`null` elements become the empty string. -/
def jsToStringList : List JVal → List String
  | [] => []
  | x :: xs =>
      (match x with
       | .undefined => ""
       | .null => ""
       | v => jsToString v) :: jsToStringList xs

end

/-- The call `parseInt(s, 10)`: skip leading whitespace, read an optional
sign and a maximal run of decimal digits; `NaN` when no digit is found. -/
def jsParseInt10 (s : String) : JVal :=
  let chars := s.data.dropWhile (fun c => c == ' ' || c == '\t' || c == '\n' || c == '\r')
  let signed : Int × List Char :=
    match chars with
    | '-' :: rest => (-1, rest)
    | '+' :: rest => (1, rest)
    | _ => (1, chars)
  let digits := signed.2.takeWhile (fun c => c.isDigit)
  if digits.isEmpty then .nan
  else .num (signed.1 * digits.foldl (fun acc c => acc * 10 + ((c.toNat : Int) - 48)) 0)

/-- The comparison `v > 0` for the values that reach it in this code. -/
def jsGTzero : JVal → Bool
  | .num n => 0 < n
  | .bool b => b
  | .str s => (s.toInt?.map (fun n => decide (0 < n))).getD false
  | _ => false

/-- Whether an `Except` computation returned normally. -/
def exceptIsOk {ε α : Type} : Except ε α → Bool
  | .ok _ => true
  | .error _ => false

/-- Field lookup inside a normally-returned object result. -/
def lookupField {ε : Type} (x : Except ε JVal) (k : String) : Option JVal :=
  match x with
  | .ok (.obj fs) => List.lookup k fs
  | _ => none

/-- Fixed CDN prefix `LI_CDN` of the source. -/
def LI_CDN : String := "https://media-exp2.licdn.com/media"

/-- Splitting a character list at every occurrence of `sep`; the result is
always non-empty. -/
def splitChars (sep : Char) : List Char → List (List Char)
  | [] => [[]]
  | c :: cs =>
      match splitChars sep cs with
      | [] => [[]]
      | g :: gs => if c = sep then [] :: g :: gs else (c :: g) :: gs

/-- The call `s.split(sep)` of JavaScript for a one-character separator:
every occurrence of the separator cuts the string, and the empty string
splits to one empty piece. -/
def jsSplit (sep : Char) (s : String) : List String :=
  (splitChars sep s.data).map (fun l => String.mk l)

/-- Embedding of `_scrubIdFromUrn`: falsy input yields the empty string,
otherwise the final colon-separated segment is fed to `parseInt(_, 10)`.
A truthy non-string has no `split` method and raises a TypeError. -/
def scrubIdFromUrn (urn : JVal) : Except String JVal :=
  if !truthy urn then .ok (.str "")
  else
    match urn with
    | .str s =>
        let pieces := jsSplit ':' s
        .ok (jsParseInt10 (pieces.getD (pieces.length - 1) ""))
    | _ => .error "urn.split is not a function"

/-- Embedding of `_scrubPathToResource`: non-object inputs with a
constructor other than `Object` yield the empty string, otherwise the
first variant key is read and its `id` fragment appended to the CDN
base.  Reading `constructor` of `undefined`/`null` raises, as does
reading `id` when the first variant is missing. -/
def scrubPathToResource (resource : JVal) : Except String JVal := do
  match resource with
  | .undefined => .error "Cannot read properties of undefined (reading constructor)"
  | .null => .error "Cannot read properties of null (reading constructor)"
  | .obj fs => do
      let key := (fs.map Prod.fst).headD "undefined"
      let v ← getProp (.obj fs) key
      let idv ← getProp v "id"
      let resourcePath := jsOr idv (.str "")
      if truthy resourcePath then
        return .str (LI_CDN ++ jsToString resourcePath)
      else
        return resourcePath
  | _ => return .str ""

/-- Embedding of `_scrubMemberInfo`: falsy member yields the all-empty
record; otherwise every person field is read from `member.member`, and a
`picture` field is resolved through `_scrubPathToResource` when present. -/
def scrubMemberInfo (member : JVal) : Except String JVal := do
  if !truthy member then
    return .obj [("firstname", .str ""), ("lastname", .str ""),
                 ("occupation", .str ""), ("publicIdentifier", .str "")]
  let mm ← getProp member "member"
  let pick (k : String) : Except String JVal :=
    if truthy mm then do
      let v ← getProp mm k
      return if truthy v then v else .str ""
    else return .str ""
  let firstname ← pick "firstName"
  let lastname ← pick "lastName"
  let occupation ← pick "occupation"
  let publicIdentifier ← pick "publicIdentifier"
  let base := [("firstname", firstname), ("lastname", lastname),
               ("occupation", occupation), ("publicIdentifier", publicIdentifier)]
  let hasPic ← if truthy mm then hasOwn mm "picture" else pure false
  if hasPic then do
    let pic ← getProp mm "picture"
    let p ← scrubPathToResource pic
    return .obj (base ++ [("picture", p)])
  else
    return .obj base

/-- Embedding of `_scrubPatentInfo`: scalar fields default on falsy raw
values, `pending` is copied verbatim, and the inventor list, when present
and non-empty, is filtered to entries carrying a `member` key and mapped
through `_scrubMemberInfo` applied to that `member` value. -/
def scrubPatentInfo (patent : JVal) : Except String JVal := do
  let applicationNumber ← getProp patent "applicationNumber"
  let description ← getProp patent "description"
  let filingDate ← getProp patent "filingDate"
  let issueDate ← getProp patent "issueDate"
  let number ← getProp patent "number"
  let pending ← getProp patent "pending"
  let title ← getProp patent "title"
  let url ← getProp patent "url"
  let base := [("applicationNumber", jsOr applicationNumber (.str "")),
               ("description", jsOr description (.str "")),
               ("filingDate", jsOr filingDate (.obj [])),
               ("issueDate", jsOr issueDate (.obj [])),
               ("number", jsOr number (.str "")),
               ("pending", pending),
               ("title", jsOr title (.str "")),
               ("url", jsOr url (.str ""))]
  let hasInventors ← hasOwn patent "inventors"
  if hasInventors then do
    let inventors ← getProp patent "inventors"
    let len ← getProp inventors "length"
    if jsGTzero len then do
      let filtered ← jsFilterJ inventors (fun inventor => hasOwn inventor "member")
      let scrubbed ← mapME (fun inventor => do
          let m ← getProp inventor "member"
          scrubMemberInfo m) filtered
      return .obj (base ++ [("inventors", .arr scrubbed)])
    else
      return .obj base
  else
    return .obj base

/-- Embedding of `_scrubPublicationInfo`: scalar fields default on falsy
raw values; a present non-empty author list is mapped through
`_scrubMemberInfo`. -/
def scrubPublicationInfo (publication : JVal) : Except String JVal := do
  let date ← getProp publication "date"
  let description ← getProp publication "description"
  let name ← getProp publication "name"
  let publisher ← getProp publication "publisher"
  let url ← getProp publication "url"
  let base := [("date", jsOr date (.obj [])),
               ("description", jsOr description (.str "")),
               ("name", jsOr name (.str "")),
               ("publisher", jsOr publisher (.str "")),
               ("url", jsOr url (.str ""))]
  let hasAuthors ← hasOwn publication "authors"
  if hasAuthors then do
    let authors ← getProp publication "authors"
    let len ← getProp authors "length"
    if jsGTzero len then do
      let scrubbed ← jsMapJ authors scrubMemberInfo
      return .obj (base ++ [("authors", scrubbed)])
    else
      return .obj base
  else
    return .obj base

/-- Embedding of `_scrubProjectInfo`.  The returned record carries only
the four scalar fields; the member normalization writes onto the raw
input (`project.members = ...`), so its result is evaluated for its
effects and errors and then discarded. -/
def scrubProjectInfo (project : JVal) : Except String JVal := do
  let description ← getProp project "description"
  let timePeriod ← getProp project "timePeriod"
  let title ← getProp project "title"
  let url ← getProp project "url"
  let hasMembers ← hasOwn project "members"
  if hasMembers then do
    let members ← getProp project "members"
    let len ← getProp members "length"
    if jsGTzero len then do
      let _ ← jsMapJ members scrubMemberInfo
      pure ()
    else
      pure ()
  else
    pure ()
  return .obj [("description", jsOr description (.str "")),
               ("timePeriod", jsOr timePeriod (.obj [])),
               ("title", jsOr title (.str "")),
               ("url", jsOr url (.str ""))]

/-- Embedding of `_scrubPositionInfo`: the company id is parsed from the
trailing urn segment when `companyUrn` is truthy, scalar fields default
on falsy raw values, and a present `company` sub-object is reduced to
employee-count range, industries and an optional mini-company logo. -/
def scrubPositionInfo (position : JVal) : Except String JVal := do
  let companyUrn ← getProp position "companyUrn"
  let linkedInCompanyId ←
    if truthy companyUrn then
      match companyUrn with
      | .str s =>
          let pieces := jsSplit ':' s
          pure (jsParseInt10 (pieces.getD (pieces.length - 1) ""))
      | _ => Except.error "position.companyUrn.split is not a function"
    else pure (.str "")
  let locationName ← getProp position "locationName"
  let companyName ← getProp position "companyName"
  let description ← getProp position "description"
  let timePeriod ← getProp position "timePeriod"
  let title ← getProp position "title"
  let base := [("locationName", jsOr locationName (.str "")),
               ("companyName", jsOr companyName (.str "")),
               ("linkedInCompanyId", linkedInCompanyId),
               ("description", jsOr description (.str "")),
               ("timePeriod", jsOr timePeriod (.obj [])),
               ("title", jsOr title (.str ""))]
  let hasCompany ← hasOwn position "company"
  if hasCompany then do
    let comp ← getProp position "company"
    let employeeCountRange ← getProp comp "employeeCountRange"
    let industries ← getProp comp "industries"
    let companyBase := [("employeeCountRange", jsOr employeeCountRange (.obj [])),
                        ("industries", jsOr industries (.arr []))]
    let hasMini ← hasOwn comp "miniCompany"
    let logoOpt ←
      if hasMini then do
        let mini ← getProp comp "miniCompany"
        let hasLogo ← hasOwn mini "logo"
        if hasLogo then do
          let lg ← getProp mini "logo"
          let logo ← scrubPathToResource lg
          pure (some logo)
        else pure none
      else pure none
    match logoOpt with
    | some logo => return .obj (base ++ [("company", .obj (companyBase ++ [("logo", logo)]))])
    | none => return .obj (base ++ [("company", .obj companyBase)])
  else
    return .obj base

/-- Embedding of `_scrubEducationInfo`: scalar fields default on falsy
raw values; a present `school` sub-object is reduced to an active flag, a
name and an optional logo. -/
def scrubEducationInfo (education : JVal) : Except String JVal := do
  let activities ← getProp education "activities"
  let degreeName ← getProp education "degreeName"
  let fieldOfStudy ← getProp education "fieldOfStudy"
  let timePeriod ← getProp education "timePeriod"
  let schoolName ← getProp education "schoolName"
  let base := [("activities", jsOr activities (.str "")),
               ("degreeName", jsOr degreeName (.str "")),
               ("fieldOfStudy", jsOr fieldOfStudy (.str "")),
               ("timePeriod", jsOr timePeriod (.obj [])),
               ("schoolName", jsOr schoolName (.str ""))]
  let hasSchool ← hasOwn education "school"
  if hasSchool then do
    let school ← getProp education "school"
    let active ← getProp school "active"
    let sname ← getProp school "schoolName"
    let schoolBase := [("active", jsOr active (.bool false)),
                       ("name", jsOr sname (.str ""))]
    let hasLogo ← hasOwn school "logo"
    if hasLogo then do
      let lg ← getProp school "logo"
      let logo ← scrubPathToResource lg
      return .obj (base ++ [("school", .obj (schoolBase ++ [("logo", logo)]))])
    else
      return .obj (base ++ [("school", .obj schoolBase)])
  else
    return .obj base

/-- Embedding of `_scrubWebsiteInfo`: the first key of the nested `type`
mapping selects the variant whose `category` field becomes the normalized
type, defaulting to Portfolio when falsy. -/
def scrubWebsiteInfo (website : JVal) : Except String JVal := do
  let t ← getProp website "type"
  let keys ← objKeys t
  let categoryType := keys.headD "undefined"
  let url ← getProp website "url"
  let t2 ← getProp website "type"
  let variant ← getProp t2 categoryType
  let category ← getProp variant "category"
  return .obj [("website", url), ("type", jsOr category (.str "Portfolio"))]

/-- The filter predicate of the headline/occupation override in
`_scrubFullProfileResponse`: a position whose `timePeriod` owns a
`startDate` and no `endDate`. -/
def isCurrentPositionE (p : JVal) : Except String Bool := do
  let h1 ← hasOwn p "timePeriod"
  if h1 then do
    let tp ← getProp p "timePeriod"
    let h2 ← hasOwn tp "startDate"
    if h2 then do
      let h3 ← hasOwn tp "endDate"
      return !h3
    else
      return false
  else
    return false

/-- Embedding of `_scrubFullProfileResponse`, mirroring the field reads
and their evaluation order, the conditional contact fields, the per-entity
sub-scrubs, and the headline/occupation override. -/
def scrubFullProfileResponse (profile : JVal) : Except String JVal := do
  let prof ← getProp profile "profile"
  let firstName ← getProp prof "firstName"
  let lastName ← getProp prof "lastName"
  let headlineRaw ← getProp prof "headline"
  let industryName ← getProp prof "industryName"
  let summary ← getProp prof "summary"
  let locationName ← getProp prof "locationName"
  let emailAddress ← getProp profile "emailAddress"
  let publicIdentifier ← getProp profile "publicIdentifier"
  let miniProfile ← getProp prof "miniProfile"
  let occupationRaw ← getProp miniProfile "occupation"
  let address ← getProp prof "address"
  let birthDateOn ← getProp profile "birthDateOn"
  let headline := jsOr headlineRaw (.str "")
  let occupation0 := jsOr occupationRaw (.str "")
  let hasPhone ← hasOwn profile "phoneNumbers"
  let phoneNumbers ←
    if hasPhone then getProp profile "phoneNumbers" else pure (.arr [])
  let hasTwitter ← hasOwn profile "twitterHandles"
  let twitterHandles ←
    if hasTwitter then do
      let tw ← getProp profile "twitterHandles"
      let mapped ← jsMapJ tw (fun twitter => getProp twitter "name")
      pure (jsOr mapped (.arr []))
    else pure (.arr [])
  let hasPicInfo ← hasOwn prof "pictureInfo"
  let picture ←
    if hasPicInfo then do
      let pictureInfo ← getProp prof "pictureInfo"
      let hasMaster ← hasOwn pictureInfo "masterImage"
      if hasMaster then do
        let masterImage ← getProp pictureInfo "masterImage"
        pure (JVal.str (LI_CDN ++ jsToString masterImage))
      else pure (.str "")
    else pure (.str "")
  let educationView ← getProp profile "educationView"
  let educationElems ← getProp educationView "elements"
  let education ← jsMapJ educationElems scrubEducationInfo
  let patentView ← getProp profile "patentView"
  let patentElems ← getProp patentView "elements"
  let patents ← jsMapJ patentElems scrubPatentInfo
  let publicationView ← getProp profile "publicationView"
  let publicationElems ← getProp publicationView "elements"
  let publications ← jsMapJ publicationElems scrubPublicationInfo
  let projectView ← getProp profile "projectView"
  let projectElems ← getProp projectView "elements"
  let projects ← jsMapJ projectElems scrubProjectInfo
  let positionView ← getProp profile "positionView"
  let positionElems ← getProp positionView "elements"
  let positions ← jsMapJ positionElems scrubPositionInfo
  let languageView ← getProp profile "languageView"
  let languageElems ← getProp languageView "elements"
  let languages ← jsMapJ languageElems (fun language => getProp language "name")
  let skillView ← getProp profile "skillView"
  let skillElems ← getProp skillView "elements"
  let skills ← jsMapJ skillElems (fun skill => getProp skill "name")
  let hasWebsites ← hasOwn profile "websites"
  let websitesOpt ←
    if hasWebsites then do
      let ws ← getProp profile "websites"
      let len ← getProp ws "length"
      if jsGTzero len then do
        let mapped ← jsMapJ ws scrubWebsiteInfo
        pure (some (jsOr mapped (.arr [])))
      else pure none
    else pure none
  let finalOccupation ←
    if jsStrictEq headline occupation0 then do
      let pv ← getProp profile "positionView"
      let pe ← getProp pv "elements"
      let currentPositions ← jsFilterJ pe isCurrentPositionE
      let currentPosition := jsOr (currentPositions.getD 0 .undefined) (.obj [])
      let t ← getProp currentPosition "title"
      pure (jsOr t (.str ""))
    else pure occupation0
  let base := [("source", JVal.str "LinkedIn"),
               ("firstname", jsOr firstName (.str "")),
               ("lastname", jsOr lastName (.str "")),
               ("headline", headline),
               ("industryName", jsOr industryName (.str "")),
               ("summary", jsOr summary (.str "")),
               ("location", jsOr locationName (.str "")),
               ("emailAddress", jsOr emailAddress (.str "")),
               ("publicIdentifier", publicIdentifier),
               ("occupation", finalOccupation),
               ("address", jsOr address (.str "")),
               ("birthdate", jsOr birthDateOn (.obj [])),
               ("phoneNumbers", phoneNumbers),
               ("twitterHandles", twitterHandles),
               ("picture", picture),
               ("education", jsOr education (.arr [])),
               ("patents", jsOr patents (.arr [])),
               ("publications", jsOr publications (.arr [])),
               ("projects", jsOr projects (.arr [])),
               ("positions", jsOr positions (.arr [])),
               ("languages", jsOr languages (.arr [])),
               ("skills", jsOr skills (.arr []))]
  match websitesOpt with
  | some w => return .obj (base ++ [("websites", w)])
  | none => return .obj base

/-- Outcome of one `fetch` of a profile sub-resource: a 2xx response with
a JSON body, a non-2xx response, or a transport rejection. -/
inductive FetchOutcome where
  | success (body : JVal)
  | httpError
  | networkError

/-- Error type of `getFullProfile`: the argument-guard `new Error` and
the TypeErrors escaping the scrub layer. -/
inductive JsError where
  | error (message : String)
  | typeError (message : String)

/-- Embedding of `_fetchProfileResource`: failures (non-2xx or transport)
are caught, logged and replaced by the empty mapping. -/
def fetchProfileResource (outcome : FetchOutcome) : JVal :=
  match outcome with
  | .success body => body
  | .httpError => .obj []
  | .networkError => .obj []

/-- Embedding of `getFullProfile`: the falsy-identifier guard, the three
sub-resource fetches, the `Object.assign` merge seeded with the public
identifier, and the final scrub. -/
def getFullProfile (publicIdentifier : JVal) (fetch : String → FetchOutcome) :
    Except JsError JVal :=
  if !truthy publicIdentifier then
    .error (.error "a public identifier is required")
  else
    let responses :=
      ["profileView", "profileContactInfo", "highlights"].map
        (fun resource => fetchProfileResource (fetch resource))
    let fullProfile :=
      responses.foldl objectAssign (.obj [("publicIdentifier", publicIdentifier)])
    (scrubFullProfileResponse fullProfile).mapError JsError.typeError

/-- Pure mirror of the override filter of `_scrubFullProfileResponse`,
usable in theorem statements: a position owning a `timePeriod` object
with a `startDate` and no `endDate`. -/
def isCurrentPosition (p : JVal) : Bool :=
  match p with
  | .obj fs =>
      match List.lookup "timePeriod" fs with
      | some (.obj tfs) =>
          (List.lookup "startDate" tfs).isSome && !(List.lookup "endDate" tfs).isSome
      | _ => false
  | _ => false

/-- The `title` field of an object value, `undefined` otherwise. -/
def titleOf (v : JVal) : JVal :=
  match v with
  | .obj fs => (List.lookup "title" fs).getD .undefined
  | _ => .undefined

/-- Sufficient well-formedness of a raw position entry: an object whose
`companyUrn`, when present, is a string, whose `timePeriod`, when
present, is an object, and with no `company` sub-object. -/
def positionOk (p : JVal) : Bool :=
  match p with
  | .obj fs =>
      (match List.lookup "companyUrn" fs with
       | none => true
       | some (.str _) => true
       | some _ => false)
      && (match List.lookup "timePeriod" fs with
          | none => true
          | some (.obj _) => true
          | some _ => false)
      && (List.lookup "company" fs).isNone
  | _ => false

/-- Whether a fetched body cannot contribute a top-level `profile` key to
the merge: either it is not an object or it lacks that key. -/
def noProfileKey (v : JVal) : Bool :=
  match v with
  | .obj fs => (List.lookup "profile" fs).isNone
  | _ => true

/-- A view record with an empty element list. -/
def emptyView : JVal := .obj [("elements", .arr [])]

/-- A minimal well-formed `profileView` body with distinct headline and
occupation. -/
def sampleProfileView : JVal :=
  .obj [("profile", .obj [("firstName", .str "Ada"), ("lastName", .str "Lovelace"),
          ("headline", .str "Analyst"),
          ("miniProfile", .obj [("occupation", .str "Programmer")])]),
        ("educationView", emptyView), ("patentView", emptyView),
        ("publicationView", emptyView), ("projectView", emptyView),
        ("positionView", emptyView),
        ("languageView", emptyView), ("skillView", emptyView)]

/-- A raw current position titled Engineer: its time period has a start
date and no end date. -/
def engineerPosition : JVal :=
  .obj [("title", .str "Engineer"),
        ("timePeriod", .obj [("startDate", .obj [("year", .num 2020)])])]

/-- A merged raw profile whose headline and occupation both carry the
string `s` and whose position view holds `ps`; every other view is
empty. -/
def mkMergedProfile (s : String) (ps : List JVal) : JVal :=
  .obj [("publicIdentifier", .str "jdoe"),
        ("profile", .obj [("firstName", .str "Ada"), ("headline", .str s),
           ("miniProfile", .obj [("occupation", .str s)])]),
        ("educationView", emptyView), ("patentView", emptyView),
        ("publicationView", emptyView), ("projectView", emptyView),
        ("positionView", .obj [("elements", .arr ps)]),
        ("languageView", emptyView), ("skillView", emptyView)]

/-- The fetch scenario in which only the contact-info sub-resource fails:
the profile view succeeds with data and the highlights succeed with an
empty JSON body. -/
def contactFailFetch : String → FetchOutcome := fun resource =>
  if resource = "profileContactInfo" then .httpError
  else if resource = "profileView" then .success sampleProfileView
  else .success (.obj [])

/-- The fetch scenario in which every sub-resource succeeds with the same
well-formed profile view. -/
def allSucceedFetch : String → FetchOutcome := fun _ => .success sampleProfileView

/-- The fetch scenario in which every sub-resource fails. -/
def allFailFetch : String → FetchOutcome := fun _ => .httpError

/-- Claim C2: the code contradicts the documented contract at the empty
mapping: instead of returning the empty string, resource-path resolution
raises a TypeError reading `id` of `undefined` (the first variant key of
an empty mapping is `undefined`).  The documented CDN concatenation on a
well-formed variant and the empty string on non-mapping primitive inputs
do hold, while `null` input also raises (reading `constructor`). -/
theorem scrubPathToResource_empty_mapping_raises :
    scrubPathToResource (.obj []) =
      .error "Cannot read properties of undefined (reading id)" ∧
    scrubPathToResource (.obj [("original", .obj [("id", .str "/abc")])]) =
      .ok (.str "https://media-exp2.licdn.com/media/abc") ∧
    scrubPathToResource (.str "x") = .ok (.str "") ∧
    exceptIsOk (scrubPathToResource .null) = false :=
  ⟨rfl, rfl, rfl, rfl⟩

/-- Claim C5: on a raw project with a non-empty member list, the record
returned by project scrubbing consists of exactly the four scalar fields
and carries no `members` key at all: the normalized member entries are
written onto the raw input and discarded. -/
theorem scrubProjectInfo_returns_no_members :
    scrubProjectInfo (.obj [("title", .str "T"),
        ("members", .arr [.obj [("member", .obj [("firstName", .str "Ada")])]])]) =
      .ok (.obj [("description", .str ""), ("timePeriod", .obj []),
                 ("title", .str "T"), ("url", .str "")]) :=
  rfl

/-- Claim C1, counterexample: on the raw patent `\x7b\x7d` the normalized
`pending` field is `undefined`, not a documented default, and website
scrubbing raises a TypeError on a raw website without a `type` mapping —
so the blanket defaults-and-no-exception invariant fails as stated. -/
theorem patent_pending_undefined_and_website_raises :
    lookupField (scrubPatentInfo (.obj [])) "pending" = some JVal.undefined ∧
    exceptIsOk (scrubWebsiteInfo (.obj [])) = false :=
  ⟨rfl, rfl⟩

/-- Claim C6, counterexample: the identifier `42` is not a non-empty
string, yet it passes the guard (it is truthy) and, with all sub-fetches
succeeding, `getFullProfile` resolves normally instead of failing with
the invalid-argument error. -/
theorem getFullProfile_accepts_truthy_nonstring :
    exceptIsOk (getFullProfile (.num 42) allSucceedFetch) = true :=
  rfl

theorem getD_length_sub_one {α : Type} (l : List α) (d : α) :
    l.getD (l.length - 1) d = l.getLastD d := by
  rw [List.getD_eq_getElem?_getD, List.getLastD_eq_getLast?, List.getLast?_eq_getElem?]

theorem exceptOk_bind {ε α β : Type} (a : α) (f : α → Except ε β) :
    (Except.ok a : Except ε α) >>= f = f a := rfl

theorem exceptError_bind {ε α β : Type} (e : ε) (f : α → Except ε β) :
    (Except.error e : Except ε α) >>= f = Except.error e := rfl

theorem exceptFmap_ok {ε α β : Type} (f : α → β) (a : α) :
    f <$> (Except.ok a : Except ε α) = Except.ok (f a) := rfl

theorem exceptFmap_error {ε α β : Type} (f : α → β) (e : ε) :
    f <$> (Except.error e : Except ε α) = Except.error e := rfl

theorem exceptPure_eq_ok {ε α : Type} (a : α) :
    (pure a : Except ε α) = Except.ok a := rfl

/-- Claim C1 (amended): on every raw patent object without an `inventors`
key and with the seven documented scalar and date fields absent, patent
scrubbing returns normally, producing the documented defaults for those
seven fields, while `pending` is copied verbatim — `undefined` when the
raw field is absent — so the blanket never-undefined invariant does not
extend to it. -/
theorem scrubPatentInfo_defaults_on_absent (fs : List (String × JVal))
    (hinv : List.lookup "inventors" fs = none)
    (happ : List.lookup "applicationNumber" fs = none)
    (hdesc : List.lookup "description" fs = none)
    (hfil : List.lookup "filingDate" fs = none)
    (hiss : List.lookup "issueDate" fs = none)
    (hnum : List.lookup "number" fs = none)
    (htit : List.lookup "title" fs = none)
    (hurl : List.lookup "url" fs = none) :
    scrubPatentInfo (.obj fs) =
      .ok (.obj [("applicationNumber", .str ""), ("description", .str ""),
                 ("filingDate", .obj []), ("issueDate", .obj []),
                 ("number", .str ""),
                 ("pending", (List.lookup "pending" fs).getD .undefined),
                 ("title", .str ""), ("url", .str "")]) := by
  simp only [scrubPatentInfo, getProp, hasOwn, happ, hdesc, hfil, hiss, hnum, htit, hurl, hinv]
  rfl

/-- Witness for the amended claim C1 at a patent carrying only a raw
`pending` flag. -/
theorem scrubPatentInfo_defaults_on_absent_witness :
    scrubPatentInfo (.obj [("pending", .bool true)]) =
      .ok (.obj [("applicationNumber", .str ""), ("description", .str ""),
                 ("filingDate", .obj []), ("issueDate", .obj []),
                 ("number", .str ""), ("pending", .bool true),
                 ("title", .str ""), ("url", .str "")]) :=
  scrubPatentInfo_defaults_on_absent [("pending", .bool true)]
    rfl rfl rfl rfl rfl rfl rfl rfl

/-- Claim C7: on every non-empty urn string the extraction returns
`parseInt(_, 10)` of the final colon-separated segment, and on the empty
string, `undefined` and `null` it returns the empty string. -/
theorem scrubIdFromUrn_spec (s : String) (h : s ≠ "") :
    scrubIdFromUrn (.str s) = .ok (jsParseInt10 ((jsSplit ':' s).getLastD "")) ∧
    scrubIdFromUrn (.str "") = .ok (.str "") ∧
    scrubIdFromUrn .undefined = .ok (.str "") ∧
    scrubIdFromUrn .null = .ok (.str "") := by
  refine ⟨?_, rfl, rfl, rfl⟩
  simp [scrubIdFromUrn, truthy, h, getD_length_sub_one, List.getLast?_eq_getElem?]

/-- Witness for claim C7 at the documented example urn. -/
theorem scrubIdFromUrn_spec_witness :
    scrubIdFromUrn (.str "urn:li:company:12345") = .ok (.num 12345) := by
  rw [(scrubIdFromUrn_spec "urn:li:company:12345" (by decide)).1]
  rfl

/-- Claim C8: for every raw website whose `type` mapping opens with a
variant key bound to an object, the normalized type is that first
variant's `category` defaulted to Portfolio; in particular it is
Portfolio whenever the category is absent. -/
theorem scrubWebsiteInfo_first_variant (ws : List (String × JVal)) (k : String)
    (tval rest : List (String × JVal))
    (ht : List.lookup "type" ws = some (.obj ((k, .obj tval) :: rest))) :
    scrubWebsiteInfo (.obj ws) =
      .ok (.obj [("website", (List.lookup "url" ws).getD .undefined),
                 ("type", jsOr ((List.lookup "category" tval).getD .undefined)
                               (.str "Portfolio"))]) ∧
    (List.lookup "category" tval = none →
      scrubWebsiteInfo (.obj ws) =
        .ok (.obj [("website", (List.lookup "url" ws).getD .undefined),
                   ("type", .str "Portfolio")])) := by
  constructor
  · simp [scrubWebsiteInfo, getProp, objKeys, ht, List.lookup,
          exceptOk_bind, exceptError_bind, exceptFmap_ok, exceptFmap_error, exceptPure_eq_ok]
  · intro hcat
    simp [scrubWebsiteInfo, getProp, objKeys, ht, hcat, List.lookup, jsOr, truthy,
          exceptOk_bind, exceptError_bind, exceptFmap_ok, exceptFmap_error, exceptPure_eq_ok]

/-- Witness for claim C8: one variant key, no nested category. -/
theorem scrubWebsiteInfo_first_variant_witness :
    scrubWebsiteInfo (.obj [("url", .str "http://a.example"),
        ("type", .obj [("x", .obj [])])]) =
      .ok (.obj [("website", .str "http://a.example"),
                 ("type", .str "Portfolio")]) :=
  (scrubWebsiteInfo_first_variant
     [("url", .str "http://a.example"), ("type", .obj [("x", .obj [])])]
     "x" [] [] rfl).2 rfl

/-- Claim C10: a patent inventor entry carrying a `member` key is
normalized by the member-info rule applied to that `member` value, and
the member-info rule reads every person field from the nested
`member.member`, so a member object without its own nested `member` key
normalizes to all-empty fields whatever it carries directly. -/
theorem scrubPatentInfo_inventor_member (gs : List (String × JVal)) (m : JVal)
    (hm : List.lookup "member" gs = some m) :
    scrubPatentInfo (.obj [("inventors", .arr [.obj gs])]) =
      (scrubMemberInfo m).map (fun r =>
        .obj [("applicationNumber", .str ""), ("description", .str ""),
              ("filingDate", .obj []), ("issueDate", .obj []),
              ("number", .str ""), ("pending", .undefined),
              ("title", .str ""), ("url", .str ""),
              ("inventors", .arr [r])]) ∧
    (∀ hs : List (String × JVal), List.lookup "member" hs = none →
      scrubMemberInfo (.obj hs) =
        .ok (.obj [("firstname", .str ""), ("lastname", .str ""),
                   ("occupation", .str ""), ("publicIdentifier", .str "")])) := by
  constructor
  · cases hr : scrubMemberInfo m with
    | ok r =>
        simp [scrubPatentInfo, getProp, hasOwn, jsFilterJ, filterME, mapME,
              jsGTzero, hm, hr, Except.map, List.lookup, jsOr, truthy,
              exceptOk_bind, exceptError_bind, exceptFmap_ok, exceptFmap_error, exceptPure_eq_ok]
    | error e =>
        simp [scrubPatentInfo, getProp, hasOwn, jsFilterJ, filterME, mapME,
              jsGTzero, hm, hr, Except.map, List.lookup, jsOr, truthy,
              exceptOk_bind, exceptError_bind, exceptFmap_ok, exceptFmap_error, exceptPure_eq_ok]
  · intro hs hnone
    simp only [scrubMemberInfo, getProp, hnone]
    rfl

/-- Witness for claim C10: person fields carried directly on the inventor
member are ignored, yielding all-empty normalized fields. -/
theorem scrubPatentInfo_inventor_member_witness :
    scrubPatentInfo (.obj [("inventors",
        .arr [.obj [("firstName", .str "Ada"),
                    ("member", .obj [("firstName", .str "Grace")])]])]) =
      .ok (.obj [("applicationNumber", .str ""), ("description", .str ""),
                 ("filingDate", .obj []), ("issueDate", .obj []),
                 ("number", .str ""), ("pending", .undefined),
                 ("title", .str ""), ("url", .str ""),
                 ("inventors", .arr [.obj [("firstname", .str ""),
                    ("lastname", .str ""), ("occupation", .str ""),
                    ("publicIdentifier", .str "")]])]) := by
  have h := scrubPatentInfo_inventor_member
    [("firstName", .str "Ada"), ("member", .obj [("firstName", .str "Grace")])]
    (.obj [("firstName", .str "Grace")]) rfl
  rw [h.1]
  rfl

theorem exceptIsOk_exists {α : Type} (x : Except String α) (h : exceptIsOk x = true) :
    ∃ a, x = .ok a := by
  cases x with
  | ok a => exact ⟨a, rfl⟩
  | error e => simp [exceptIsOk] at h

theorem mapME_ok (f : JVal → Except String JVal) (xs : List JVal)
    (h : ∀ x ∈ xs, exceptIsOk (f x) = true) : ∃ ys, mapME f xs = .ok ys := by
  induction xs with
  | nil => exact ⟨[], rfl⟩
  | cons x rest ih =>
      obtain ⟨y, hy⟩ := exceptIsOk_exists (f x) (h x (List.mem_cons_self x rest))
      obtain ⟨ys, hys⟩ := ih (fun z hz => h z (List.mem_cons_of_mem x hz))
      exact ⟨y :: ys, by simp [mapME, hy, hys, exceptOk_bind, exceptPure_eq_ok]⟩

theorem filterME_eval (g : JVal → Except String Bool) (d : JVal → Bool) (xs : List JVal)
    (h : ∀ x ∈ xs, g x = .ok (d x)) : filterME g xs = .ok (xs.filter d) := by
  induction xs with
  | nil => rfl
  | cons x rest ih =>
      have hx := h x (List.mem_cons_self x rest)
      have hrest := ih (fun z hz => h z (List.mem_cons_of_mem x hz))
      cases hd : d x <;>
        simp [filterME, hx, hrest, hd, List.filter, exceptOk_bind, exceptPure_eq_ok]

theorem scrubPositionInfo_ok (p : JVal) (hok : positionOk p = true) :
    exceptIsOk (scrubPositionInfo p) = true := by
  cases p with
  | obj fs =>
      have hco : List.lookup "company" fs = none := by
        rcases h : List.lookup "company" fs with _ | v
        · rfl
        · rw [positionOk, h] at hok; simp at hok
      rcases hcu : List.lookup "companyUrn" fs with _ | v
      · simp [scrubPositionInfo, getProp, hasOwn, hcu, hco, truthy, exceptIsOk,
          exceptOk_bind, exceptPure_eq_ok]
      · cases v with
        | str s =>
            by_cases hs : s = "" <;>
              simp [scrubPositionInfo, getProp, hasOwn, hcu, hco, hs, truthy, exceptIsOk,
                exceptOk_bind, exceptPure_eq_ok]
        | undefined => rw [positionOk, hcu] at hok; simp at hok
        | null => rw [positionOk, hcu] at hok; simp at hok
        | bool b => rw [positionOk, hcu] at hok; simp at hok
        | num n => rw [positionOk, hcu] at hok; simp at hok
        | nan => rw [positionOk, hcu] at hok; simp at hok
        | arr xs => rw [positionOk, hcu] at hok; simp at hok
        | obj gs => rw [positionOk, hcu] at hok; simp at hok
  | undefined => simp [positionOk] at hok
  | null => simp [positionOk] at hok
  | bool b => simp [positionOk] at hok
  | num n => simp [positionOk] at hok
  | nan => simp [positionOk] at hok
  | str s => simp [positionOk] at hok
  | arr xs => simp [positionOk] at hok

theorem isCurrentPositionE_eval (p : JVal) (hok : positionOk p = true) :
    isCurrentPositionE p = .ok (isCurrentPosition p) := by
  cases p with
  | obj fs =>
      rcases htp : List.lookup "timePeriod" fs with _ | v
      · simp [isCurrentPositionE, isCurrentPosition, hasOwn, getProp, htp,
          exceptOk_bind, exceptPure_eq_ok]
      · cases v with
        | obj tfs =>
            cases h2 : (List.lookup "startDate" tfs).isSome <;>
              simp [isCurrentPositionE, isCurrentPosition, hasOwn, getProp, htp, h2,
                exceptOk_bind, exceptPure_eq_ok]
        | undefined => rw [positionOk, htp] at hok; simp at hok
        | null => rw [positionOk, htp] at hok; simp at hok
        | bool b => rw [positionOk, htp] at hok; simp at hok
        | num n => rw [positionOk, htp] at hok; simp at hok
        | nan => rw [positionOk, htp] at hok; simp at hok
        | str s => rw [positionOk, htp] at hok; simp at hok
        | arr xs => rw [positionOk, htp] at hok; simp at hok
  | undefined => simp [positionOk] at hok
  | null => simp [positionOk] at hok
  | bool b => simp [positionOk] at hok
  | num n => simp [positionOk] at hok
  | nan => simp [positionOk] at hok
  | str s => simp [positionOk] at hok
  | arr xs => simp [positionOk] at hok

theorem jsOr_str_empty (s : String) : jsOr (.str s) (.str "") = .str s := by
  by_cases h : s = "" <;> simp [jsOr, truthy, h]

theorem jsStrictEq_str_self (s : String) : jsStrictEq (.str s) (.str s) = true := by
  simp [jsStrictEq]

theorem positionOk_obj (p : JVal) (hok : positionOk p = true) :
    ∃ gs, p = JVal.obj gs := by
  cases p with
  | obj gs => exact ⟨gs, rfl⟩
  | undefined => simp [positionOk] at hok
  | null => simp [positionOk] at hok
  | bool b => simp [positionOk] at hok
  | num n => simp [positionOk] at hok
  | nan => simp [positionOk] at hok
  | str s => simp [positionOk] at hok
  | arr xs => simp [positionOk] at hok

set_option maxHeartbeats 2000000 in
/-- Claim C3: on every merged raw profile of the family
`mkMergedProfile s ps` — normalized headline equal to normalized
occupation, arbitrary well-formed positions — the scrub succeeds and
re-derives the occupation as the defaulted title of the first position
whose time period has a start date and no end date, the empty string when
no such position exists. -/
theorem scrubFullProfile_occupation_override (s : String) (ps : List JVal)
    (hps : ∀ p ∈ ps, positionOk p = true) :
    exceptIsOk (scrubFullProfileResponse (mkMergedProfile s ps)) = true ∧
    lookupField (scrubFullProfileResponse (mkMergedProfile s ps)) "occupation" =
      some (jsOr (titleOf ((ps.filter isCurrentPosition).headD (.obj []))) (.str "")) := by
  obtain ⟨ys, hys⟩ :=
    mapME_ok scrubPositionInfo ps (fun p hp => scrubPositionInfo_ok p (hps p hp))
  have hfil : filterME isCurrentPositionE ps = .ok (ps.filter isCurrentPosition) :=
    filterME_eval _ _ ps (fun p hp => isCurrentPositionE_eval p (hps p hp))
  rcases hh : ps.filter isCurrentPosition with _ | ⟨p0, rest⟩
  · by_cases hs : s = "" <;>
      simp [scrubFullProfileResponse, mkMergedProfile, emptyView, getProp, hasOwn,
            jsMapJ, jsFilterJ, mapME, hys, hfil, hh, hs, jsStrictEq,
            Except.map, List.lookup, lookupField, exceptIsOk, titleOf, jsOr, truthy,
            exceptOk_bind, exceptError_bind, exceptFmap_ok, exceptFmap_error, exceptPure_eq_ok]
  · obtain ⟨gs, rfl⟩ := positionOk_obj p0
      (hps p0 (List.mem_of_mem_filter (hh ▸ List.mem_cons_self p0 rest)))
    by_cases hs : s = "" <;>
      simp [scrubFullProfileResponse, mkMergedProfile, emptyView, getProp, hasOwn,
            jsMapJ, jsFilterJ, mapME, hys, hfil, hh, hs, jsStrictEq,
            Except.map, List.lookup, lookupField, exceptIsOk, titleOf, jsOr, truthy,
            exceptOk_bind, exceptError_bind, exceptFmap_ok, exceptFmap_error, exceptPure_eq_ok]

/-- Witness for claim C3: with duplicated headline/occupation and one
current position titled Engineer, the scrubbed occupation is Engineer. -/
theorem scrubFullProfile_occupation_override_witness :
    lookupField
        (scrubFullProfileResponse (mkMergedProfile "Senior Dev" [engineerPosition]))
        "occupation" =
      some (.str "Engineer") := by
  have h := scrubFullProfile_occupation_override "Senior Dev" [engineerPosition]
    (by decide)
  rw [h.2]
  rfl

/-- Claim C4: failed sub-resource fetches are swallowed into the empty
mapping, and when the contact-info sub-fetch fails while profile view and
highlights succeed, `getFullProfile` still resolves, carrying the data of
the succeeding responses with the contact fields defaulted. -/
theorem getFullProfile_contact_failure_degrades (f : String → FetchOutcome)
    (h1 : f "profileView" = .success sampleProfileView)
    (h2 : f "profileContactInfo" = .httpError)
    (h3 : f "highlights" = .success (.obj [])) :
    (∀ o : FetchOutcome, o = .httpError ∨ o = .networkError →
        fetchProfileResource o = .obj []) ∧
    exceptIsOk (getFullProfile (.str "jdoe") f) = true ∧
    lookupField (getFullProfile (.str "jdoe") f) "firstname" = some (.str "Ada") ∧
    lookupField (getFullProfile (.str "jdoe") f) "lastname" = some (.str "Lovelace") ∧
    lookupField (getFullProfile (.str "jdoe") f) "emailAddress" = some (.str "") ∧
    lookupField (getFullProfile (.str "jdoe") f) "phoneNumbers" = some (.arr []) ∧
    lookupField (getFullProfile (.str "jdoe") f) "twitterHandles" = some (.arr []) ∧
    lookupField (getFullProfile (.str "jdoe") f) "birthdate" = some (.obj []) := by
  constructor
  · rintro o (rfl | rfl) <;> rfl
  refine ⟨?_, ?_, ?_, ?_, ?_, ?_, ?_⟩ <;>
    · simp only [getFullProfile, List.map_cons, List.map_nil, h1, h2, h3]
      rfl

/-- Witness for claim C4 in the concrete contact-failure scenario. -/
theorem getFullProfile_contact_failure_degrades_witness :
    exceptIsOk (getFullProfile (.str "jdoe") contactFailFetch) = true ∧
    lookupField (getFullProfile (.str "jdoe") contactFailFetch) "emailAddress" =
      some (.str "") := by
  have h := getFullProfile_contact_failure_degrades contactFailFetch rfl rfl rfl
  exact ⟨h.2.1, h.2.2.2.2.1⟩

theorem lookup_setKey_of_ne (fs : List (String × JVal)) (k a : String) (v : JVal)
    (h : (k == a) = false) :
    List.lookup k (setKey fs a v) = List.lookup k fs := by
  induction fs with
  | nil => simp [setKey, List.lookup, h]
  | cons kv rest ih =>
      obtain ⟨b, w⟩ := kv
      by_cases hb : b = a
      · subst hb
        simp [setKey, List.lookup, h]
      · cases hk : k == b <;> simp [setKey, hb, List.lookup, hk, ih]

theorem lookup_assign_none : ∀ (gs fs : List (String × JVal)) (k : String),
    List.lookup k fs = none → List.lookup k gs = none →
    List.lookup k (gs.foldl (fun acc kv => setKey acc kv.1 kv.2) fs) = none := by
  intro gs
  induction gs with
  | nil => intro fs k hfs _; simpa using hfs
  | cons kv rest ih =>
      intro fs k hfs hgs
      obtain ⟨a, v⟩ := kv
      cases hka : k == a with
      | true => simp [List.lookup, hka] at hgs
      | false =>
          have hrest : List.lookup k rest = none := by
            simpa [List.lookup, hka] using hgs
          simp only [List.foldl]
          exact ih (setKey fs a v) k
            (by rw [lookup_setKey_of_ne fs k a v hka]; exact hfs) hrest

theorem assign_noProfile (fs : List (String × JVal)) (src : JVal)
    (hfs : List.lookup "profile" fs = none) (hsrc : noProfileKey src = true) :
    ∃ fs', objectAssign (.obj fs) src = .obj fs' ∧ List.lookup "profile" fs' = none := by
  cases src with
  | obj gs =>
      refine ⟨_, rfl, ?_⟩
      exact lookup_assign_none gs fs "profile" hfs
        (by simpa [noProfileKey, Option.isNone_iff_eq_none] using hsrc)
  | undefined => exact ⟨fs, rfl, hfs⟩
  | null => exact ⟨fs, rfl, hfs⟩
  | bool b => exact ⟨fs, rfl, hfs⟩
  | num n => exact ⟨fs, rfl, hfs⟩
  | nan => exact ⟨fs, rfl, hfs⟩
  | str s => exact ⟨fs, rfl, hfs⟩
  | arr xs => exact ⟨fs, rfl, hfs⟩

theorem scrubFullProfileResponse_missing_profile (fs : List (String × JVal))
    (h : List.lookup "profile" fs = none) :
    scrubFullProfileResponse (.obj fs) =
      .error "Cannot read properties of undefined (reading firstName)" := by
  unfold scrubFullProfileResponse
  rw [show getProp (.obj fs) "profile" = Except.ok JVal.undefined from by simp [getProp, h]]
  rfl

theorem mapError_typeError_ne (x : Except String JVal) (m : String) :
    Except.mapError JsError.typeError x ≠ .error (.error m) := by
  cases x <;> simp [Except.mapError]

/-- Claim C9: every merged raw structure without a top-level `profile`
key makes the profile scrub raise a TypeError reading `firstName` of
`undefined`; consequently, when the profile-view sub-fetch degrades to
the empty mapping and the other responses contribute no `profile` key,
`getFullProfile` rejects with that TypeError instead of resolving. -/
theorem getFullProfile_rejects_without_profileView :
    (∀ fs : List (String × JVal), List.lookup "profile" fs = none →
        scrubFullProfileResponse (.obj fs) =
          .error "Cannot read properties of undefined (reading firstName)") ∧
    (∀ (pid : JVal) (f : String → FetchOutcome),
        truthy pid = true →
        (f "profileView" = .httpError ∨ f "profileView" = .networkError) →
        noProfileKey (fetchProfileResource (f "profileContactInfo")) = true →
        noProfileKey (fetchProfileResource (f "highlights")) = true →
        getFullProfile pid f =
          .error (.typeError "Cannot read properties of undefined (reading firstName)")) := by
  constructor
  · exact scrubFullProfileResponse_missing_profile
  · intro pid f hpid hpv hc hh
    have hb1 : fetchProfileResource (f "profileView") = .obj [] := by
      rcases hpv with h | h <;> simp [h, fetchProfileResource]
    have hseed : List.lookup "profile" [("publicIdentifier", pid)] = none := rfl
    obtain ⟨fs2, he2, hn2⟩ :=
      assign_noProfile [("publicIdentifier", pid)]
        (fetchProfileResource (f "profileContactInfo")) hseed hc
    obtain ⟨fs3, he3, hn3⟩ :=
      assign_noProfile fs2 (fetchProfileResource (f "highlights")) hn2 hh
    simp only [getFullProfile, hpid, Bool.not_true, Bool.false_eq_true, if_false,
               List.map_cons, List.map_nil, List.foldl_cons, List.foldl_nil, hb1]
    rw [show objectAssign (.obj [("publicIdentifier", pid)]) (.obj []) =
          .obj [("publicIdentifier", pid)] from rfl, he2, he3,
        scrubFullProfileResponse_missing_profile fs3 hn3]
    rfl

/-- Witness for claim C9: all three sub-fetches fail, so the merged
structure lacks `profile` and the call rejects with the TypeError. -/
theorem getFullProfile_rejects_without_profileView_witness :
    getFullProfile (.str "someone") allFailFetch =
      .error (.typeError "Cannot read properties of undefined (reading firstName)") :=
  getFullProfile_rejects_without_profileView.2 (.str "someone") allFailFetch
    rfl (Or.inl rfl) rfl rfl

/-- Claim C6 (amended): the invalid-argument failure of `getFullProfile`
happens exactly when the identifier is falsy under JavaScript truthiness;
in particular every non-empty string passes the guard and every empty or
absent identifier fails, but a truthy non-string also passes. -/
theorem getFullProfile_guard_iff (pid : JVal) (f : String → FetchOutcome) :
    getFullProfile pid f = .error (.error "a public identifier is required") ↔
      truthy pid = false := by
  cases hp : truthy pid with
  | false => simp [getFullProfile, hp]
  | true =>
      simp only [getFullProfile, hp, Bool.not_true, Bool.false_eq_true, if_false,
                 Bool.true_eq_false, iff_false]
      exact mapError_typeError_ne _ _

/-- Witness for the amended claim C6 at an absent identifier. -/
theorem getFullProfile_guard_iff_witness :
    getFullProfile .undefined allFailFetch =
      .error (.error "a public identifier is required") :=
  (getFullProfile_guard_iff .undefined allFailFetch).mpr rfl
